import Mathlib

/-!
Verification development for the timewar carbon-cycle box model.

The real-valued functions below are shallow embeddings of the Python
sources (`cambio_utils.py`, `climate_params.py`, `cambio.py`,
`cambio_utils_compare.py`), with numpy's float arrays modelled as
`List ℝ` and exact real arithmetic in place of IEEE floats.
-/

open Real

noncomputable section

/-! ## Sigmoid gate functions (cambio_utils.py) -/

/-- Embedding of `sigmafloor(t_in, t_transition, t_interval, floor)`:
a smooth step-down function rescaled to asymptote at `floor`. -/
noncomputable def sigmafloor (t_in t_transition t_interval floor : ℝ) : ℝ :=
  (1 - 1 / (1 + Real.exp (-(t_in - t_transition) * 3 / t_interval))) * (1 - floor) + floor

/-- Embedding of `sigmaup(t_in, transitiontime, transitiontimeinterval)`. -/
noncomputable def sigmaup (t_in transitiontime transitiontimeinterval : ℝ) : ℝ :=
  1 / (1 + Real.exp (-(t_in - transitiontime) * 3 / transitiontimeinterval))

/-- Embedding of `sigmadown = 1 - sigmaup`. -/
noncomputable def sigmadown (t_in transitiontime transitiontimeinterval : ℝ) : ℝ :=
  1 - sigmaup t_in transitiontime transitiontimeinterval

/-! ## numpy primitives used by the sources -/

/-- `np.sign`: 1 for positive, -1 for negative, 0 at 0. -/
noncomputable def npSign (x : ℝ) : ℝ :=
  if 0 < x then 1 else if x < 0 then -1 else 0

/-- `np.max` over a 1-d array (0 on the empty array, which numpy rejects). -/
def npMax : List ℝ → ℝ
  | [] => 0
  | a :: t => t.foldl max a

/-- Index of the first occurrence of `x`, as computed by
`np.where(eps == np.max(eps))[0][0]` when `x` is the maximum. -/
noncomputable def firstIdxOf (x : ℝ) : List ℝ → ℕ
  | [] => 0
  | a :: t => if a = x then 0 else firstIdxOf x t + 1

/-- `np.linspace(start, stop, num)`: `num` evenly spaced samples, inclusive
of both endpoints. -/
noncomputable def linspace (start stop : ℝ) (num : ℕ) : List ℝ :=
  (List.range num).map (fun i => start + (i : ℝ) * ((stop - start) / ((num : ℝ) - 1)))

/-- `np.allclose(a, b)` with numpy's default tolerances
`rtol = 1e-5`, `atol = 1e-8`, for arrays of equal length. -/
def npAllclose (a b : List ℝ) : Prop :=
  ∀ i, i < a.length → |a.getD i 0 - b.getD i 0| ≤ 1e-8 + 1e-5 * |b.getD i 0|

/-! ## ClimateParams (climate_params.py): class constants and diagnostics -/

namespace ClimateParams

def preindust_c_atm : ℝ := 615

def preindust_c_ocean : ℝ := 350

def preindust_albedo : ℝ := 0.3

def preindust_ph : ℝ := 8.2

def climate_sensitivity : ℝ := 3 / preindust_c_atm

def k_la : ℝ := 120

def k_al0 : ℝ := 113

def k_al1 : ℝ := 0.0114

def k_oa : ℝ := 0.2

def k_ao : ℝ := 0.114

def ocean_degas_flux_feedback : ℝ := 0.034

def albedo_sensitivity : ℝ := -100

def albedo_transition_temperature : ℝ := 4

def albedo_transition_interval : ℝ := 1

def max_albedo_change_rate : ℝ := 0.0006

def fractional_albedo_floor : ℝ := 0.9

def flux_al_transition_temp : ℝ := 4

def flux_al_transition_temp_interval : ℝ := 1

def fractional_flux_al_floor : ℝ := 0.9

/-- `diagnose_ocean_surface_ph`: `-log10(c_atm / preindust_c_atm) + preindust_ph`. -/
noncomputable def diagnose_ocean_surface_ph (c_atm : ℝ) : ℝ :=
  -(Real.logb 10 (c_atm / preindust_c_atm)) + preindust_ph

/-- `diagnose_temp_anomaly`: linear response to atmospheric carbon. -/
noncomputable def diagnose_temp_anomaly (c_atm : ℝ) : ℝ :=
  climate_sensitivity * (c_atm - preindust_c_atm)

/-- `diagnose_flux_atm_ocean`: `k_ao * c_atm`. -/
noncomputable def diagnose_flux_atm_ocean (c_atm : ℝ) : ℝ :=
  k_ao * c_atm

/-- `diagnose_flux_ocean_atm`: temperature-dependent ocean degassing. -/
noncomputable def diagnose_flux_ocean_atm (c_ocean temp_anomaly : ℝ) : ℝ :=
  k_oa * (1 + ocean_degas_flux_feedback * temp_anomaly) * c_ocean

/-- `diagnose_flux_atm_land`: terrestrial sink with a floored sigmoid gate. -/
noncomputable def diagnose_flux_atm_land (temp_anomaly c_atm : ℝ) : ℝ :=
  k_al0 + k_al1 *
    sigmafloor temp_anomaly flux_al_transition_temp flux_al_transition_temp_interval
      fractional_flux_al_floor * c_atm

/-- `diagnose_flux_land_atm`: the constant terrestrial source `k_la`. -/
noncomputable def diagnose_flux_land_atm : ℝ := k_la

/-- `diagnose_albedo`: unconstrained albedo from the temperature anomaly. -/
noncomputable def diagnose_albedo (temp_anom : ℝ) : ℝ :=
  sigmafloor temp_anom albedo_transition_temperature albedo_transition_interval
    fractional_albedo_floor * preindust_albedo

/-- `diagnose_albedo_w_constraint(temp_anom, prev_albedo=0, dtime=0)`: the
unconstrained albedo, with the per-step change clamped to
`max_albedo_change_rate * dtime` when both optional arguments are nonzero. -/
noncomputable def diagnose_albedo_w_constraint
    (temp_anom : ℝ) (prev_albedo : ℝ := 0) (dtime : ℝ := 0) : ℝ :=
  let albedo := diagnose_albedo temp_anom
  if prev_albedo ≠ 0 ∧ dtime ≠ 0 then
    let albedo_change := albedo - prev_albedo
    let max_albedo_change := max_albedo_change_rate * dtime
    if |albedo_change| > max_albedo_change then
      prev_albedo + npSign albedo_change * max_albedo_change
    else albedo
  else albedo

/-- `diagnose_delta_t_from_albedo`: radiative-balance temperature shift. -/
noncomputable def diagnose_delta_t_from_albedo (albedo : ℝ) : ℝ :=
  (albedo - preindust_albedo) * albedo_sensitivity

/-- `diagnose_stochastic_c_atm`: `np.random.normal(c_atm, std_dev)`; the
process-wide random source is modelled by the explicit sampler `draw`,
mapping (mean, std dev) to the drawn value. -/
noncomputable def diagnose_stochastic_c_atm
    (draw : ℝ → ℝ → ℝ) (stochastic_c_atm_std_dev c_atm : ℝ) : ℝ :=
  draw c_atm stochastic_c_atm_std_dev

end ClimateParams

/-- `Diagnose_actual_temperature` (cambio_utils.py): anomaly + 14 degrees C. -/
noncomputable def Diagnose_actual_temperature (T_anomaly : ℝ) : ℝ :=
  T_anomaly + 14

/-! ## Emissions-scenario generator (cambio_utils.py) -/

/-- `ipeak = np.where(eps == np.max(eps))[0][0]`: first index attaining the
maximum of the array. -/
noncomputable def ipeak (eps : List ℝ) : ℕ :=
  firstIdxOf (npMax eps) eps

/-- `PostPeakFlattener(time, eps, transitiontimeinterval, epslongterm)`:
copy `eps` and, from the index of its maximum onward, replace each value by
a Gaussian-weighted blend of the peak value toward `epslongterm`. -/
noncomputable def PostPeakFlattener
    (time eps : List ℝ) (transitiontimeinterval epslongterm : ℝ) : List ℝ :=
  let ip := ipeak eps
  let b := eps.getD ip 0
  let a := epslongterm
  (List.range eps.length).map (fun i =>
    if i < ip then eps.getD i 0
    else a + Real.exp (-((time.getD i 0 - time.getD ip 0) ^ 2) / transitiontimeinterval ^ 2)
           * (b - a))

/-- `make_emissions_scenario(t_start, t_stop, nsteps, k, eps_0, t_0, t_trans,
delta_t_trans)`: `nsteps`-point `np.linspace` grid and the normalized
exponential-growth-times-sigmoid-decay forcing curve over it. -/
noncomputable def make_emissions_scenario
    (t_start t_stop : ℝ) (nsteps : ℕ) (k eps_0 t_0 t_trans delta_t_trans : ℝ) :
    List ℝ × List ℝ :=
  let time := linspace t_start t_stop nsteps
  let myN := eps_0 / (Real.exp (k * t_0) * sigmadown t_0 t_trans delta_t_trans)
  let eps := time.map (fun t => myN * Real.exp (k * t) * sigmadown t t_trans delta_t_trans)
  (time, eps)

/-- `make_emissions_scenario_lte`: the base scenario with the post-peak
flattener applied to the forcing curve. -/
noncomputable def make_emissions_scenario_lte
    (t_start t_stop : ℝ) (nsteps : ℕ) (k eps_0 t_0 t_trans delta_t epslongterm : ℝ) :
    List ℝ × List ℝ :=
  let p := make_emissions_scenario t_start t_stop nsteps k eps_0 t_0 t_trans delta_t
  (p.1, PostPeakFlattener p.1 p.2 delta_t epslongterm)

/-! ## Climate state (cambio.py): a `dict[str, float]`, modelled as an
association list over the fixed set of field names. -/

/-- The field names appearing in the climate state dictionaries. -/
inductive FieldName where
  | C_atm | C_ocean | albedo | T_anomaly | pH | T_C | T_F
  | F_ha | F_ao | F_oa | F_al | F_la | year
  deriving DecidableEq, Repr

/-- A climate state: a mapping from field name to scalar, in insertion order. -/
def State : Type := List (FieldName × ℝ)

/-- Dictionary read `state[key]` (0 if the key is absent; the sources only
read keys they have written). -/
noncomputable def getF (s : State) (k : FieldName) : ℝ :=
  (List.lookup k s).getD 0

/-- The preindustrial baseline state built in `cambio` (cambio.py lines
151-166) from `preindustrial_inputs.climate_params`, with
`year = time[0] - dtime` supplied by the caller. -/
noncomputable def baselineState (year0 : ℝ) : State :=
  [(FieldName.C_atm, 615), (FieldName.C_ocean, 350), (FieldName.albedo, 0.3),
   (FieldName.T_anomaly, 0), (FieldName.pH, 0), (FieldName.T_C, 0), (FieldName.T_F, 0),
   (FieldName.F_ha, 0), (FieldName.F_ao, 0), (FieldName.F_oa, 0), (FieldName.F_al, 0),
   (FieldName.F_la, 0), (FieldName.year, year0)]

/-- `propagate_climate_state` (cambio.py lines 195-283): one explicit-Euler
step of the climate state.  `draw` is the explicit sampler standing for
`np.random.normal`, and `sigma` the configured std dev; both are consulted
only when `stochastic_C_atm` is set. -/
noncomputable def propagate_climate_state
    (prev_climatestate : State) (sigma : ℝ) (draw : ℝ → ℝ → ℝ)
    (dtime : ℝ := 1) (F_ha : ℝ := 0)
    (albedo_with_no_constraint : Bool := false) (albedo_feedback : Bool := false)
    (stochastic_C_atm : Bool := false) (temp_anomaly_feedback : Bool := false) :
    State :=
  let c_atm := getF prev_climatestate FieldName.C_atm
  let c_ocean := getF prev_climatestate FieldName.C_ocean
  let t_anom := ClimateParams.diagnose_temp_anomaly c_atm
  let fluxes :=
    if temp_anomaly_feedback then
      (ClimateParams.diagnose_flux_ocean_atm c_ocean t_anom,
       ClimateParams.diagnose_flux_atm_land t_anom c_atm)
    else
      (ClimateParams.diagnose_flux_ocean_atm c_ocean 0,
       ClimateParams.diagnose_flux_atm_land 0 c_atm)
  let F_oa := fluxes.1
  let F_al := fluxes.2
  let F_ao := ClimateParams.diagnose_flux_atm_ocean c_atm
  let F_la := ClimateParams.diagnose_flux_land_atm
  let c_atm2 := c_atm + (F_la + F_oa - F_ao - F_al + F_ha) * dtime
  let c_ocean2 := c_ocean + (F_ao - F_oa) * dtime
  let albedo :=
    if albedo_with_no_constraint then
      ClimateParams.diagnose_albedo_w_constraint t_anom
        (getF prev_climatestate FieldName.albedo) dtime
    else
      ClimateParams.diagnose_albedo_w_constraint t_anom
  let t_anom2 :=
    if albedo_feedback then t_anom + ClimateParams.diagnose_delta_t_from_albedo albedo
    else t_anom
  let c_atm3 :=
    if stochastic_C_atm then ClimateParams.diagnose_stochastic_c_atm draw sigma c_atm2
    else c_atm2
  let pH := ClimateParams.diagnose_ocean_surface_ph c_atm3
  let T_C := Diagnose_actual_temperature t_anom2
  [(FieldName.C_atm, c_atm3), (FieldName.C_ocean, c_ocean2), (FieldName.albedo, albedo),
   (FieldName.T_anomaly, t_anom2), (FieldName.pH, pH), (FieldName.T_C, T_C),
   (FieldName.F_ha, F_ha), (FieldName.F_ao, F_ao), (FieldName.F_oa, F_oa),
   (FieldName.F_la, F_la), (FieldName.F_al, F_al),
   (FieldName.year, getF prev_climatestate FieldName.year + dtime)]

/-- Call-site semantics of one propagator invocation: the returned state
paired with the previous state object as it stands after the call.  Every
operation the source performs on `prev_climatestate` is a read (lines 222,
223, 248, 280 of cambio.py); only the freshly created dictionary is written,
so the previous object is returned unchanged. -/
noncomputable def propagate_climate_state_call
    (prev_climatestate : State) (sigma : ℝ) (draw : ℝ → ℝ → ℝ)
    (dtime F_ha : ℝ)
    (albedo_with_no_constraint albedo_feedback stochastic_C_atm
      temp_anomaly_feedback : Bool) : State × State :=
  (propagate_climate_state prev_climatestate sigma draw dtime F_ha
     albedo_with_no_constraint albedo_feedback stochastic_C_atm temp_anomaly_feedback,
   prev_climatestate)

/-! ## The driver (cambio.py lines 126-192) and its QC guard -/

open Classical in
/-- `is_same` (cambio_utils_compare.py lines 124-133): raises `ValueError`
when the arrays differ; otherwise falls off the end, returning Python's
`None`.  The `Bool` carried on success is the truthiness of that return
value: `None` is falsy, hence `false`. -/
noncomputable def is_same (arr1 arr2 : List ℝ) : Except String Bool :=
  if arr1.length ≠ arr2.length ∨ ¬ npAllclose arr1 arr2 then
    Except.error "Failed QC: arrays differ!"
  else
    Except.ok false

/-- The driver loop of `cambio` (lines 175-184): fold the propagator over
the scheduled human-to-atmosphere fluxes, collecting each produced state.
All four feedback toggles stay at the propagator's defaults (`False`), as
in the source, which never forwards its own flag arguments. -/
noncomputable def cambioLoop (sigma : ℝ) (draw : ℝ → ℝ → ℝ) (dtime : ℝ) :
    State → List ℝ → List State
  | _, [] => []
  | s, f :: rest =>
    let s2 := propagate_climate_state s sigma draw dtime f false false false false
    s2 :: cambioLoop sigma draw dtime s2 rest

/-- The accumulated time series `climate[key]` of a `cambio` run over a
given scenario `(time, forcing)`. -/
noncomputable def cambioSeries
    (time forcing : List ℝ) (dtime sigma : ℝ) (draw : ℝ → ℝ → ℝ) (key : FieldName) :
    List ℝ :=
  (cambioLoop sigma draw dtime (baselineState (time.getD 0 0 - dtime)) forcing).map
    (fun s => getF s key)

/-- The post-scenario body of `cambio` (cambio.py lines 140-192): build the
preindustrial baseline with `year = time[0] - dtime`, run the loop, then QC
the accumulated `year` and `F_ha` series against the scenario with
`is_same`, raising `ValueError` when the guard's return value is falsy.
(The scenario call itself, lines 130-138, cannot be embedded as written:
it passes 7 positional arguments to the 9-parameter
`make_emissions_scenario_lte`, so the scenario pair is taken as input.) -/
noncomputable def cambio
    (time forcing : List ℝ) (dtime sigma : ℝ) (draw : ℝ → ℝ → ℝ) :
    Except String (FieldName → List ℝ) :=
  let series := fun key => cambioSeries time forcing dtime sigma draw key
  match is_same time (series FieldName.year) with
  | Except.error e => Except.error e
  | Except.ok v =>
    if v then
      match is_same forcing (series FieldName.F_ha) with
      | Except.error e => Except.error e
      | Except.ok w =>
        if w then Except.ok series
        else Except.error "The input and output anthropogenic emissions differ!"
    else Except.error "The input and output times differ!"

/-- A deterministic stand-in sampler for `np.random.normal`, returning the
mean; only used to instantiate runs whose stochastic toggle is off, where
the sampler is never consulted. -/
noncomputable def meanDraw : ℝ → ℝ → ℝ := fun c _ => c

/-! ## Helper lemmas about the sigmoid gates -/

lemma one_add_exp_pos (u : ℝ) : 0 < 1 + Real.exp u := by positivity

lemma logistic_pos (u : ℝ) : 0 < 1 / (1 + Real.exp u) := by positivity

lemma logistic_lt_one (u : ℝ) : 1 / (1 + Real.exp u) < 1 := by
  rw [div_lt_one (one_add_exp_pos u)]
  linarith [Real.exp_pos u]

lemma sigmafloor_mem (x t w f : ℝ) (hf1 : f ≤ 1) :
    f ≤ sigmafloor x t w f ∧ sigmafloor x t w f ≤ 1 := by
  unfold sigmafloor
  have h1 := logistic_pos (-(x - t) * 3 / w)
  have h2 := logistic_lt_one (-(x - t) * 3 / w)
  constructor <;> nlinarith

lemma sigmafloor_strict (x t w f : ℝ) (hf1 : f < 1) :
    f < sigmafloor x t w f ∧ sigmafloor x t w f < 1 := by
  unfold sigmafloor
  have h1 := logistic_pos (-(x - t) * 3 / w)
  have h2 := logistic_lt_one (-(x - t) * 3 / w)
  constructor <;> nlinarith

lemma sigmafloor_anti (t w f : ℝ) (hw : 0 < w) (hf1 : f ≤ 1)
    (x1 x2 : ℝ) (hx : x1 ≤ x2) :
    sigmafloor x2 t w f ≤ sigmafloor x1 t w f := by
  unfold sigmafloor
  have harg : -(x2 - t) * 3 / w ≤ -(x1 - t) * 3 / w := by
    gcongr
  have hexp := Real.exp_le_exp.mpr harg
  have hL : 1 / (1 + Real.exp (-(x1 - t) * 3 / w))
      ≤ 1 / (1 + Real.exp (-(x2 - t) * 3 / w)) :=
    one_div_le_one_div_of_le (one_add_exp_pos _) (by linarith)
  nlinarith [mul_nonneg (sub_nonneg.mpr hL) (sub_nonneg.mpr hf1)]

/-! ## Claim C8: range and monotonicity of the floored sigmoid -/

/-- C8: for every `x`, transition point `t`, width `w > 0` and floor in
`[0, 1]`, `sigmafloor x t w floor` lies in `[floor, 1]` and is monotonically
non-increasing in `x`. -/
theorem sigmafloor_range_and_antitone (t w f : ℝ)
    (hw : 0 < w) (hf0 : 0 ≤ f) (hf1 : f ≤ 1) :
    (∀ x, f ≤ sigmafloor x t w f ∧ sigmafloor x t w f ≤ 1) ∧
    (∀ x1 x2, x1 ≤ x2 → sigmafloor x2 t w f ≤ sigmafloor x1 t w f) :=
  ⟨fun x => sigmafloor_mem x t w f hf1, fun x1 x2 hx => sigmafloor_anti t w f hw hf1 x1 x2 hx⟩

/-- Witness for C8 at `t = 0`, `w = 1`, `floor = 1/2`. -/
theorem sigmafloor_range_and_antitone_witness :
    ((0:ℝ) < 1 ∧ (0:ℝ) ≤ 1/2 ∧ (1/2:ℝ) ≤ 1) ∧
    ((∀ x, (1/2:ℝ) ≤ sigmafloor x 0 1 (1/2) ∧ sigmafloor x 0 1 (1/2) ≤ 1) ∧
     (∀ x1 x2, x1 ≤ x2 → sigmafloor x2 0 1 (1/2) ≤ sigmafloor x1 0 1 (1/2))) :=
  ⟨⟨by norm_num, by norm_num, by norm_num⟩,
   sigmafloor_range_and_antitone 0 1 (1/2) (by norm_num) (by norm_num) (by norm_num)⟩

/-! ## Claim C10: the zero-argument escape hatch of the rate limiter -/

/-- C10: calling the rate-limited albedo diagnostic with previous albedo 0
or dtime 0 (the default arguments) returns exactly the unconstrained
albedo — the rate limit is silently disabled whenever either argument is
zero, even for a genuinely supplied previous albedo of 0. -/
theorem diagnose_albedo_w_constraint_zero_disables (t prev dtime : ℝ)
    (h : prev = 0 ∨ dtime = 0) :
    ClimateParams.diagnose_albedo_w_constraint t prev dtime
      = ClimateParams.diagnose_albedo t := by
  unfold ClimateParams.diagnose_albedo_w_constraint
  rw [if_neg]
  rintro ⟨h1, h2⟩
  rcases h with h | h
  · exact h1 h
  · exact h2 h

/-- Witness for C10 at `t = 0`, `prev = 0`, `dtime = 1`. -/
theorem diagnose_albedo_w_constraint_zero_disables_witness :
    ((0:ℝ) = 0 ∨ (1:ℝ) = 0) ∧
    ClimateParams.diagnose_albedo_w_constraint 0 0 1 = ClimateParams.diagnose_albedo 0 :=
  ⟨Or.inl rfl, diagnose_albedo_w_constraint_zero_disables 0 0 1 (Or.inl rfl)⟩

/-! ## Claim C5: the rate-limited albedo clamp -/

lemma max_albedo_change_rate_pos : (0:ℝ) < ClimateParams.max_albedo_change_rate := by
  norm_num [ClimateParams.max_albedo_change_rate]

/-- C5 counterexample: at `temp_anom = 0`, `prev_albedo = 0.2`,
`dtime = -1`, both supplied arguments are nonzero and the unconstrained
change magnitude exceeds `max_albedo_change_rate * dtime`, yet the
returned albedo's change from the previous albedo does not have magnitude
`max_albedo_change_rate * dtime` (an absolute value cannot equal that
negative quantity). -/
theorem diagnose_albedo_w_constraint_negative_dtime :
    (0.2:ℝ) ≠ 0 ∧ (-1:ℝ) ≠ 0 ∧
    |ClimateParams.diagnose_albedo 0 - 0.2|
      > ClimateParams.max_albedo_change_rate * (-1) ∧
    |ClimateParams.diagnose_albedo_w_constraint 0 0.2 (-1) - 0.2|
      ≠ ClimateParams.max_albedo_change_rate * (-1) := by
  have hneg : ClimateParams.max_albedo_change_rate * (-1) < 0 := by
    norm_num [ClimateParams.max_albedo_change_rate]
  exact ⟨by norm_num, by norm_num,
    lt_of_lt_of_le hneg (abs_nonneg _),
    ne_of_gt (lt_of_lt_of_le hneg (abs_nonneg _))⟩

/-- C5 (amended): for every call with nonzero previous albedo and positive
`dtime`, whenever the unconstrained albedo change magnitude exceeds
`max_albedo_change_rate * dtime`, the returned albedo's change from the
previous albedo has magnitude exactly `max_albedo_change_rate * dtime` and
the same sign as the unconstrained change; otherwise the unconstrained
albedo is returned unchanged.  (The claim's `nonzero dtime` is amended to
`positive dtime`: for negative `dtime` the clamp target
`max_albedo_change_rate * dtime` is negative and the returned change has
the opposite sign.) -/
theorem diagnose_albedo_w_constraint_clamp (t prev dtime : ℝ)
    (hprev : prev ≠ 0) (hdt : 0 < dtime) :
    (|ClimateParams.diagnose_albedo t - prev|
        > ClimateParams.max_albedo_change_rate * dtime →
      |ClimateParams.diagnose_albedo_w_constraint t prev dtime - prev|
          = ClimateParams.max_albedo_change_rate * dtime ∧
      npSign (ClimateParams.diagnose_albedo_w_constraint t prev dtime - prev)
          = npSign (ClimateParams.diagnose_albedo t - prev)) ∧
    (|ClimateParams.diagnose_albedo t - prev|
        ≤ ClimateParams.max_albedo_change_rate * dtime →
      ClimateParams.diagnose_albedo_w_constraint t prev dtime
          = ClimateParams.diagnose_albedo t) := by
  have hm : 0 < ClimateParams.max_albedo_change_rate * dtime :=
    mul_pos max_albedo_change_rate_pos hdt
  unfold ClimateParams.diagnose_albedo_w_constraint
  rw [if_pos ⟨hprev, ne_of_gt hdt⟩]
  constructor
  · intro h
    rw [if_pos h]
    have hΔ : ClimateParams.diagnose_albedo t - prev ≠ 0 := by
      intro h0
      rw [h0, abs_zero] at h
      linarith
    have hsimp : prev + npSign (ClimateParams.diagnose_albedo t - prev)
        * (ClimateParams.max_albedo_change_rate * dtime) - prev
        = npSign (ClimateParams.diagnose_albedo t - prev)
          * (ClimateParams.max_albedo_change_rate * dtime) := by ring
    rw [hsimp]
    rcases lt_or_gt_of_ne hΔ with hlt | hgt
    · have hs : npSign (ClimateParams.diagnose_albedo t - prev) = -1 := by
        unfold npSign
        rw [if_neg (by linarith), if_pos hlt]
      rw [hs]
      constructor
      · rw [abs_mul, abs_neg, abs_one, one_mul, abs_of_pos hm]
      · unfold npSign
        rw [if_neg (by nlinarith), if_pos (by nlinarith)]
    · have hs : npSign (ClimateParams.diagnose_albedo t - prev) = 1 := by
        unfold npSign
        rw [if_pos hgt]
      rw [hs]
      constructor
      · rw [one_mul, abs_of_pos hm]
      · unfold npSign
        rw [if_pos (by nlinarith)]
  · intro h
    rw [if_neg (not_lt.mpr h)]

/-- Witness for the amended C5 at `t = 0`, `prev = 0.2`, `dtime = 1`. -/
theorem diagnose_albedo_w_constraint_clamp_witness :
    ((0.2:ℝ) ≠ 0 ∧ (0:ℝ) < 1) ∧
    ((|ClimateParams.diagnose_albedo 0 - 0.2|
        > ClimateParams.max_albedo_change_rate * 1 →
      |ClimateParams.diagnose_albedo_w_constraint 0 0.2 1 - 0.2|
          = ClimateParams.max_albedo_change_rate * 1 ∧
      npSign (ClimateParams.diagnose_albedo_w_constraint 0 0.2 1 - 0.2)
          = npSign (ClimateParams.diagnose_albedo 0 - 0.2)) ∧
    (|ClimateParams.diagnose_albedo 0 - 0.2|
        ≤ ClimateParams.max_albedo_change_rate * 1 →
      ClimateParams.diagnose_albedo_w_constraint 0 0.2 1
          = ClimateParams.diagnose_albedo 0)) :=
  ⟨⟨by norm_num, by norm_num⟩,
   diagnose_albedo_w_constraint_clamp 0 0.2 1 (by norm_num) (by norm_num)⟩

/-! ## Field-access lemmas for the propagated state (all toggles at their
defaults, as the `cambio` driver calls the propagator) -/

lemma propagate_defaults_C_atm (prev : State) (sigma : ℝ) (draw : ℝ → ℝ → ℝ)
    (dtime F_ha : ℝ) :
    getF (propagate_climate_state prev sigma draw dtime F_ha false false false false)
        FieldName.C_atm
      = getF prev FieldName.C_atm
        + (ClimateParams.diagnose_flux_land_atm
           + ClimateParams.diagnose_flux_ocean_atm (getF prev FieldName.C_ocean) 0
           - ClimateParams.diagnose_flux_atm_ocean (getF prev FieldName.C_atm)
           - ClimateParams.diagnose_flux_atm_land 0 (getF prev FieldName.C_atm)
           + F_ha) * dtime := rfl

lemma propagate_defaults_C_ocean (prev : State) (sigma : ℝ) (draw : ℝ → ℝ → ℝ)
    (dtime F_ha : ℝ) :
    getF (propagate_climate_state prev sigma draw dtime F_ha false false false false)
        FieldName.C_ocean
      = getF prev FieldName.C_ocean
        + (ClimateParams.diagnose_flux_atm_ocean (getF prev FieldName.C_atm)
           - ClimateParams.diagnose_flux_ocean_atm (getF prev FieldName.C_ocean) 0) * dtime := rfl

lemma propagate_defaults_T_anomaly (prev : State) (sigma : ℝ) (draw : ℝ → ℝ → ℝ)
    (dtime F_ha : ℝ) :
    getF (propagate_climate_state prev sigma draw dtime F_ha false false false false)
        FieldName.T_anomaly
      = ClimateParams.diagnose_temp_anomaly (getF prev FieldName.C_atm) := rfl

lemma propagate_defaults_pH (prev : State) (sigma : ℝ) (draw : ℝ → ℝ → ℝ)
    (dtime F_ha : ℝ) :
    getF (propagate_climate_state prev sigma draw dtime F_ha false false false false)
        FieldName.pH
      = ClimateParams.diagnose_ocean_surface_ph
          (getF (propagate_climate_state prev sigma draw dtime F_ha false false false false)
            FieldName.C_atm) := rfl

lemma propagate_defaults_F_ha (prev : State) (sigma : ℝ) (draw : ℝ → ℝ → ℝ)
    (dtime F_ha : ℝ) :
    getF (propagate_climate_state prev sigma draw dtime F_ha false false false false)
        FieldName.F_ha = F_ha := rfl

lemma propagate_defaults_F_la (prev : State) (sigma : ℝ) (draw : ℝ → ℝ → ℝ)
    (dtime F_ha : ℝ) :
    getF (propagate_climate_state prev sigma draw dtime F_ha false false false false)
        FieldName.F_la = ClimateParams.diagnose_flux_land_atm := rfl

lemma propagate_defaults_F_al (prev : State) (sigma : ℝ) (draw : ℝ → ℝ → ℝ)
    (dtime F_ha : ℝ) :
    getF (propagate_climate_state prev sigma draw dtime F_ha false false false false)
        FieldName.F_al
      = ClimateParams.diagnose_flux_atm_land 0 (getF prev FieldName.C_atm) := rfl

lemma propagate_year (prev : State) (sigma : ℝ) (draw : ℝ → ℝ → ℝ)
    (dtime F_ha : ℝ) (c1 c2 c3 c4 : Bool) :
    getF (propagate_climate_state prev sigma draw dtime F_ha c1 c2 c3 c4)
        FieldName.year = getF prev FieldName.year + dtime := rfl

lemma baselineState_C_atm (y : ℝ) : getF (baselineState y) FieldName.C_atm = 615 := rfl

lemma baselineState_C_ocean (y : ℝ) : getF (baselineState y) FieldName.C_ocean = 350 := rfl

lemma baselineState_year (y : ℝ) : getF (baselineState y) FieldName.year = y := rfl

/-! ## Claim C2: the single step from the preindustrial baseline -/

/-- Numeric bounds for the sigmoid gate at the baseline anomaly 0 with the
`F_al` feedback parameters: `exp 12 ≥ 13` pins it into `[0.9928, 1]`. -/
lemma sigmafloor_at_baseline_bounds :
    (0.9928:ℝ) ≤ sigmafloor 0 4 1 0.9 ∧ sigmafloor 0 4 1 0.9 ≤ 1 := by
  refine ⟨?_, (sigmafloor_mem 0 4 1 0.9 (by norm_num)).2⟩
  unfold sigmafloor
  have harg : -((0:ℝ) - 4) * 3 / 1 = 12 := by norm_num
  rw [harg]
  have hE : (13:ℝ) ≤ Real.exp 12 := by
    have h := Real.add_one_le_exp (12:ℝ)
    linarith
  have hfrac : 1 / (1 + Real.exp 12) ≤ 1 / 14 :=
    one_div_le_one_div_of_le (by norm_num) (by linarith)
  nlinarith

/-- The atmospheric carbon after one default step from the baseline lies
strictly between 614 and 615: the land sink slightly exceeds the other
fluxes at preindustrial values. -/
lemma baseline_step_c_atm_bounds (y sigma : ℝ) (draw : ℝ → ℝ → ℝ) :
    (614:ℝ) < getF (propagate_climate_state (baselineState y) sigma draw 1 0
        false false false false) FieldName.C_atm ∧
    getF (propagate_climate_state (baselineState y) sigma draw 1 0
        false false false false) FieldName.C_atm < 615 := by
  rw [propagate_defaults_C_atm, baselineState_C_atm, baselineState_C_ocean]
  have hs := sigmafloor_at_baseline_bounds
  unfold ClimateParams.diagnose_flux_land_atm ClimateParams.diagnose_flux_ocean_atm
    ClimateParams.diagnose_flux_atm_ocean ClimateParams.diagnose_flux_atm_land
  unfold ClimateParams.k_la ClimateParams.k_oa ClimateParams.k_ao
    ClimateParams.k_al0 ClimateParams.k_al1 ClimateParams.ocean_degas_flux_feedback
    ClimateParams.flux_al_transition_temp ClimateParams.flux_al_transition_temp_interval
    ClimateParams.fractional_flux_al_floor
  constructor <;> nlinarith [hs.1, hs.2]

/-- The pH diagnosed after one default step from the baseline is strictly
greater than the preindustrial 8.2, because it is computed from the
already-updated (slightly decreased) atmospheric carbon. -/
lemma baseline_step_ph_gt (y sigma : ℝ) (draw : ℝ → ℝ → ℝ) :
    8.2 < getF (propagate_climate_state (baselineState y) sigma draw 1 0
        false false false false) FieldName.pH := by
  rw [propagate_defaults_pH]
  have hb := baseline_step_c_atm_bounds y sigma draw
  unfold ClimateParams.diagnose_ocean_surface_ph
  unfold ClimateParams.preindust_c_atm ClimateParams.preindust_ph
  have hlog : Real.logb 10
      (getF (propagate_climate_state (baselineState y) sigma draw 1 0
        false false false false) FieldName.C_atm / 615) < 0 := by
    apply Real.logb_neg (by norm_num)
    · have h0 : (0:ℝ) < getF (propagate_climate_state (baselineState y) sigma draw 1 0
          false false false false) FieldName.C_atm := by linarith [hb.1]
      positivity
    · rw [div_lt_one (by norm_num)]
      exact hb.2
  linarith

/-- C2 counterexample: at the claim's own input (preindustrial baseline,
all toggles off, `F_ha = 0`, `dtime = 1`) the resulting state's pH is not
8.2, because the source diagnoses pH from the already-updated atmospheric
carbon, which one default step has moved off its reference value. -/
theorem propagate_baseline_ph_ne :
    getF (propagate_climate_state (baselineState 1749) 0.1 meanDraw 1 0
        false false false false) FieldName.pH ≠ 8.2 :=
  ne_of_gt (baseline_step_ph_gt 1749 0.1 meanDraw)

/-- C2 (amended): the single step from the preindustrial baseline with all
toggles off, `F_ha = 0` and `dtime = 1` has `T_anomaly = 0` and
`C_atm = 615 + (k_la + F_oa0 - F_ao0 - F_al0) * 1` from the stated
constants, while the pH equals
`-log10(C_atm_next / 615) + 8.2` computed from the updated carbon, which
is strictly greater than 8.2 (not equal to it). -/
theorem propagate_baseline_step (y sigma : ℝ) (draw : ℝ → ℝ → ℝ) :
    getF (propagate_climate_state (baselineState y) sigma draw 1 0
        false false false false) FieldName.T_anomaly = 0 ∧
    getF (propagate_climate_state (baselineState y) sigma draw 1 0
        false false false false) FieldName.C_atm
      = 615 + (ClimateParams.k_la
          + ClimateParams.diagnose_flux_ocean_atm 350 0
          - ClimateParams.diagnose_flux_atm_ocean 615
          - ClimateParams.diagnose_flux_atm_land 0 615) * 1 ∧
    getF (propagate_climate_state (baselineState y) sigma draw 1 0
        false false false false) FieldName.pH
      = -(Real.logb 10
          (getF (propagate_climate_state (baselineState y) sigma draw 1 0
            false false false false) FieldName.C_atm / 615)) + 8.2 ∧
    8.2 < getF (propagate_climate_state (baselineState y) sigma draw 1 0
        false false false false) FieldName.pH := by
  refine ⟨?_, ?_, ?_, baseline_step_ph_gt y sigma draw⟩
  · rw [propagate_defaults_T_anomaly, baselineState_C_atm]
    unfold ClimateParams.diagnose_temp_anomaly ClimateParams.climate_sensitivity
      ClimateParams.preindust_c_atm
    ring
  · rw [propagate_defaults_C_atm, baselineState_C_atm, baselineState_C_ocean]
    unfold ClimateParams.diagnose_flux_land_atm
    ring
  · rw [propagate_defaults_pH]
    unfold ClimateParams.diagnose_ocean_surface_ph ClimateParams.preindust_c_atm
      ClimateParams.preindust_ph
    rfl

/-! ## Claim C4: mass conservation of the default step -/

/-- C4: with all feedback toggles off and `F_ha = 0`, the net one-step
change `ΔC_atm + ΔC_ocean` equals `(F_la - F_al) * dtime` exactly; the
`F_ao`/`F_oa` exchange terms cancel. -/
theorem propagate_mass_conservation (prev : State) (sigma : ℝ)
    (draw : ℝ → ℝ → ℝ) (dtime : ℝ) :
    (getF (propagate_climate_state prev sigma draw dtime 0 false false false false)
        FieldName.C_atm - getF prev FieldName.C_atm)
    + (getF (propagate_climate_state prev sigma draw dtime 0 false false false false)
        FieldName.C_ocean - getF prev FieldName.C_ocean)
    = (getF (propagate_climate_state prev sigma draw dtime 0 false false false false)
        FieldName.F_la
       - getF (propagate_climate_state prev sigma draw dtime 0 false false false false)
        FieldName.F_al) * dtime := by
  rw [propagate_defaults_C_atm, propagate_defaults_C_ocean,
    propagate_defaults_F_la, propagate_defaults_F_al]
  ring

/-! ## Claim C7: the schema of the propagated states -/

/-- C7 counterexample: the baseline state carries the `T_F` field, but the
state returned by the propagator does not (the `T_F` assignment is
commented out in the source), so the propagated schema is not the
baseline's. -/
theorem propagate_drops_T_F :
    FieldName.T_F ∈ (baselineState 1749).map Prod.fst ∧
    FieldName.T_F ∉ (propagate_climate_state (baselineState 1749) 0.1 meanDraw 1 0
        false false false false).map Prod.fst := by
  have hb : (baselineState 1749).map Prod.fst
      = [FieldName.C_atm, FieldName.C_ocean, FieldName.albedo, FieldName.T_anomaly,
         FieldName.pH, FieldName.T_C, FieldName.T_F, FieldName.F_ha, FieldName.F_ao,
         FieldName.F_oa, FieldName.F_al, FieldName.F_la, FieldName.year] := rfl
  have hp : (propagate_climate_state (baselineState 1749) 0.1 meanDraw 1 0
        false false false false).map Prod.fst
      = [FieldName.C_atm, FieldName.C_ocean, FieldName.albedo, FieldName.T_anomaly,
         FieldName.pH, FieldName.T_C, FieldName.F_ha, FieldName.F_ao, FieldName.F_oa,
         FieldName.F_la, FieldName.F_al, FieldName.year] := rfl
  exact ⟨by rw [hb]; decide, by rw [hp]; decide⟩

/-- C7 (amended): every state returned by the propagator, for every input
state, parameters and toggle combination, has the same fixed 12-field
schema, in the source's insertion order: all the baseline fields except
`T_F`, which the propagator omits. -/
theorem propagate_schema_uniform (prev : State) (sigma : ℝ) (draw : ℝ → ℝ → ℝ)
    (dtime F_ha : ℝ) (c1 c2 c3 c4 : Bool) :
    (propagate_climate_state prev sigma draw dtime F_ha c1 c2 c3 c4).map Prod.fst
      = [FieldName.C_atm, FieldName.C_ocean, FieldName.albedo, FieldName.T_anomaly,
         FieldName.pH, FieldName.T_C, FieldName.F_ha, FieldName.F_ao, FieldName.F_oa,
         FieldName.F_la, FieldName.F_al, FieldName.year] := rfl

/-! ## Claim C9: the propagator does not mutate the previous state -/

/-- C9: one propagator call returns a new state and leaves the previous
state object — every field of it — unchanged: the source reads
`prev_climatestate` at four places and writes only the freshly created
dictionary.  Moreover, for `dtime ≠ 0` the returned state differs from the
previous one (its `year` has advanced), so the propagator genuinely
replaces rather than aliases the input. -/
theorem propagate_frame (prev : State) (sigma : ℝ) (draw : ℝ → ℝ → ℝ)
    (dtime F_ha : ℝ) (c1 c2 c3 c4 : Bool) :
    (propagate_climate_state_call prev sigma draw dtime F_ha c1 c2 c3 c4).2 = prev ∧
    (dtime ≠ 0 →
      (propagate_climate_state_call prev sigma draw dtime F_ha c1 c2 c3 c4).1 ≠ prev) := by
  refine ⟨rfl, fun hdt hEq => hdt ?_⟩
  have hy := propagate_year prev sigma draw dtime F_ha c1 c2 c3 c4
  have hEq2 : propagate_climate_state prev sigma draw dtime F_ha c1 c2 c3 c4 = prev := hEq
  rw [hEq2] at hy
  linarith

/-- Witness for C9 at the baseline state with `dtime = 1`. -/
theorem propagate_frame_witness :
    (propagate_climate_state_call (baselineState 1749) 0.1 meanDraw 1 0
        false false false false).2 = baselineState 1749 ∧
    (propagate_climate_state_call (baselineState 1749) 0.1 meanDraw 1 0
        false false false false).1 ≠ baselineState 1749 :=
  ⟨(propagate_frame (baselineState 1749) 0.1 meanDraw 1 0 false false false false).1,
   (propagate_frame (baselineState 1749) 0.1 meanDraw 1 0 false false false false).2
     (by norm_num)⟩

/-! ## Claim C6: the post-peak flattener -/

lemma le_foldl_max (l : List ℝ) (a : ℝ) : a ≤ l.foldl max a := by
  induction l generalizing a with
  | nil => exact le_refl a
  | cons b t ih => exact le_trans (le_max_left a b) (ih (max a b))

lemma mem_le_foldl_max (l : List ℝ) (a x : ℝ) (hx : x ∈ l) : x ≤ l.foldl max a := by
  induction l generalizing a with
  | nil => cases hx
  | cons b t ih =>
    rcases List.mem_cons.mp hx with h | h
    · subst h
      exact le_trans (le_max_right a x) (le_foldl_max t (max a x))
    · exact ih (max a b) h

lemma foldl_max_choice (l : List ℝ) (a : ℝ) :
    l.foldl max a = a ∨ l.foldl max a ∈ l := by
  induction l generalizing a with
  | nil => exact Or.inl rfl
  | cons b t ih =>
    rcases ih (max a b) with h | h
    · rcases max_choice a b with hc | hc
      · exact Or.inl (by rw [List.foldl_cons, h, hc])
      · exact Or.inr (by rw [List.foldl_cons, h, hc]; exact List.mem_cons_self b t)
    · exact Or.inr (List.mem_cons_of_mem b h)

lemma mem_le_npMax (l : List ℝ) (x : ℝ) (hx : x ∈ l) : x ≤ npMax l := by
  cases l with
  | nil => cases hx
  | cons a t =>
    rcases List.mem_cons.mp hx with h | h
    · subst h
      exact le_foldl_max t x
    · exact mem_le_foldl_max t a x h

lemma npMax_mem (l : List ℝ) (h : l ≠ []) : npMax l ∈ l := by
  cases l with
  | nil => exact absurd rfl h
  | cons a t =>
    rcases foldl_max_choice t a with hc | hc
    · rw [show npMax (a :: t) = List.foldl max a t from rfl, hc]
      exact List.mem_cons_self a t
    · rw [show npMax (a :: t) = List.foldl max a t from rfl]
      exact List.mem_cons_of_mem a hc

lemma firstIdxOf_lt_length (x : ℝ) (l : List ℝ) (h : x ∈ l) :
    firstIdxOf x l < l.length := by
  induction l with
  | nil => cases h
  | cons a t ih =>
    unfold firstIdxOf
    by_cases hax : a = x
    · rw [if_pos hax]
      simp
    · rw [if_neg hax]
      have hxt : x ∈ t := by
        rcases List.mem_cons.mp h with h1 | h1
        · exact absurd h1.symm hax
        · exact h1
      simpa using ih hxt

lemma getD_firstIdxOf (x : ℝ) (l : List ℝ) (h : x ∈ l) :
    l.getD (firstIdxOf x l) 0 = x := by
  induction l with
  | nil => cases h
  | cons a t ih =>
    unfold firstIdxOf
    by_cases hax : a = x
    · rw [if_pos hax]
      exact hax
    · rw [if_neg hax]
      have hxt : x ∈ t := by
        rcases List.mem_cons.mp h with h1 | h1
        · exact absurd h1.symm hax
        · exact h1
      simpa using ih hxt

lemma getD_range_map (n : ℕ) (f : ℕ → ℝ) (i : ℕ) (h : i < n) :
    ((List.range n).map f).getD i 0 = f i := by
  rw [List.getD_eq_getElem?_getD, List.getElem?_map, List.getElem?_range h]
  rfl

/-- C6: the flattener locates `ipeak`, an index of the maximum forcing
value; the returned series equals the input at every index before `ipeak`,
and at every index `i ≥ ipeak` equals
`lte + exp(-((time[i] - time[ipeak])^2) / w^2) * (peak - lte)`. -/
theorem PostPeakFlattener_spec (time eps : List ℝ) (w lte : ℝ)
    (hne : eps ≠ []) (hlen : time.length = eps.length) :
    ipeak eps < eps.length ∧
    (PostPeakFlattener time eps w lte).length = eps.length ∧
    (∀ j, j < eps.length → eps.getD j 0 ≤ eps.getD (ipeak eps) 0) ∧
    (∀ i, i < ipeak eps →
      (PostPeakFlattener time eps w lte).getD i 0 = eps.getD i 0) ∧
    (∀ i, ipeak eps ≤ i → i < eps.length →
      (PostPeakFlattener time eps w lte).getD i 0
        = lte + Real.exp (-((time.getD i 0 - time.getD (ipeak eps) 0) ^ 2) / w ^ 2)
            * (eps.getD (ipeak eps) 0 - lte)) := by
  have hip : ipeak eps < eps.length :=
    firstIdxOf_lt_length (npMax eps) eps (npMax_mem eps hne)
  have hmaxval : eps.getD (ipeak eps) 0 = npMax eps :=
    getD_firstIdxOf (npMax eps) eps (npMax_mem eps hne)
  refine ⟨hip, by simp [PostPeakFlattener], ?_, ?_, ?_⟩
  · intro j hj
    rw [hmaxval]
    refine mem_le_npMax eps _ ?_
    rw [List.getD_eq_getElem?_getD, List.getElem?_eq_getElem hj]
    exact List.getElem_mem hj
  · intro i hi
    unfold PostPeakFlattener
    rw [getD_range_map _ _ i (lt_trans hi hip)]
    rw [if_pos hi]
  · intro i hle hlt
    unfold PostPeakFlattener
    rw [getD_range_map _ _ i hlt]
    rw [if_neg (not_lt.mpr hle)]

/-- Witness for C6 at `time = [0, 1]`, `eps = [1, 2]`, `w = 1`, `lte = 0`. -/
theorem PostPeakFlattener_spec_witness :
    (([1, 2] : List ℝ) ≠ [] ∧ ([0, 1] : List ℝ).length = ([1, 2] : List ℝ).length) ∧
    (ipeak [1, 2] < ([1, 2] : List ℝ).length ∧
     (PostPeakFlattener [0, 1] [1, 2] 1 0).length = ([1, 2] : List ℝ).length ∧
     (∀ j, j < ([1, 2] : List ℝ).length →
       ([1, 2] : List ℝ).getD j 0 ≤ ([1, 2] : List ℝ).getD (ipeak [1, 2]) 0) ∧
     (∀ i, i < ipeak [1, 2] →
       (PostPeakFlattener [0, 1] [1, 2] 1 0).getD i 0 = ([1, 2] : List ℝ).getD i 0) ∧
     (∀ i, ipeak [1, 2] ≤ i → i < ([1, 2] : List ℝ).length →
       (PostPeakFlattener [0, 1] [1, 2] 1 0).getD i 0
         = 0 + Real.exp (-((([0, 1] : List ℝ).getD i 0
             - ([0, 1] : List ℝ).getD (ipeak [1, 2]) 0) ^ 2) / 1 ^ 2)
             * (([1, 2] : List ℝ).getD (ipeak [1, 2]) 0 - 0))) :=
  ⟨⟨by simp, rfl⟩, PostPeakFlattener_spec [0, 1] [1, 2] 1 0 (by simp) rfl⟩

/-! ## Claim C3: the time grid of the emissions-scenario generator -/

/-- C3: the generator's third parameter is a `np.linspace` sample count,
not a step size.  Filling it with a "dtime" of 6 over `[0, 10]` — as the
`cambio` driver fills that slot with its `dtime` — yields the 6-point grid
`[0, 2, 4, 6, 8, 10]`, whose consecutive points differ by 2, not by 6. -/
theorem make_emissions_scenario_step_not_dtime :
    (make_emissions_scenario 0 10 6 1 1 1 1 1).1 = [0, 2, 4, 6, 8, 10] ∧
    ((2:ℝ) ≠ 6) := by
  constructor
  · show linspace 0 10 6 = _
    unfold linspace
    rw [show List.range 6 = [0, 1, 2, 3, 4, 5] from rfl]
    simp [List.map]
    norm_num
  · norm_num

/-! ## Claim C1: the driver's self-consistency guard -/

/-- C1: on a run whose accumulated `year` and `F_ha` series reproduce the
scenario exactly (`time = [2000]`, `forcing = [0]`, `dtime = 1`), the
driver still raises `ValueError("The input and output times differ!")`:
`is_same` returns Python's `None` on success, which is falsy, so the
guard `if not is_same(...)` fires on every run, matching or not. -/
theorem cambio_errors_on_matching_series (draw : ℝ → ℝ → ℝ) :
    cambioSeries [2000] [0] 1 0.1 draw FieldName.year = [2000] ∧
    cambioSeries [2000] [0] 1 0.1 draw FieldName.F_ha = [0] ∧
    cambio [2000] [0] 1 0.1 draw = Except.error "The input and output times differ!" := by
  have hyear : cambioSeries [2000] [0] 1 0.1 draw FieldName.year = [2000] := by
    rw [show cambioSeries [2000] [0] 1 0.1 draw FieldName.year
        = [(2000:ℝ) - 1 + 1] from rfl]
    norm_num
  have hfha : cambioSeries [2000] [0] 1 0.1 draw FieldName.F_ha = [0] := rfl
  have hsame : is_same [2000] ([2000] : List ℝ) = Except.ok false := by
    unfold is_same
    rw [if_neg]
    rintro (h | h)
    · exact h rfl
    · refine h ?_
      intro i hi
      have hi0 : i = 0 := by simpa [Nat.lt_one_iff] using hi
      subst hi0
      show |(2000:ℝ) - 2000| ≤ 1e-8 + 1e-5 * |(2000:ℝ)|
      rw [sub_self, abs_zero, abs_of_nonneg (by norm_num : (0:ℝ) ≤ 2000)]
      norm_num
  refine ⟨hyear, hfha, ?_⟩
  simp only [cambio]
  rw [hyear, hsame]
  rfl
